import Mathlib

/-!  Verification of the lenny-lens conversational retrieval pipeline.

This file shallowly embeds the request-time core of the repository:
`src/backend/rate_limiter.py` (sliding-window quota) and
`src/backend/main.py` (classification, extraction, query rewriting,
retrieval quality gate, session bookkeeping, and the
`search-with-answer` request handler).  External collaborators
(embedding service, vector store, generation service, turnstile, the
query-log database) are modelled as oracle functions supplied to the
handler; machine floats are modelled as rationals; wall-clock instants
as integers (one day = 86400 units).  Python regular-expression calls
(`re.search` with `re.IGNORECASE`) are embedded as explicit leftmost
scanners with greedy word-level backtracking; note that `re.IGNORECASE`
makes the character classes `[A-Z]` and `[a-z]` match letters of either
case, so the embedded matchers treat any ASCII letter as acceptable for
a name-span character while comparing literals lowercased.  Since the
continuation after a name span always begins with a space or an
apostrophe (never a letter), intra-word backtracking can never produce
a match that word-granular backtracking misses, so words are matched
maximally.  Queries are assumed newline-free (the `$` anchor and `.`
class of the Python patterns treat newlines specially; no request in
scope contains one).
-/

namespace LennyLens

/-- One day of model time, the `timedelta(days=1)` / `timedelta(hours=24)`
window used by both the rate limiter and the session sweep. -/
def oneDay : Int := 86400

/-- The apostrophe character, written via its code point. -/
def apos : Char := Char.ofNat 39

/-- The apostrophe as a one-character string. -/
def aposS : String := String.mk [apos]

/-- Worker for `pySplit`: accumulate the current word (reversed) while
walking the characters. -/
def splitWsAux : List Char → List Char → List (List Char)
  | [], acc => if acc.isEmpty then [] else [acc.reverse]
  | c :: cs, acc =>
    if c.isWhitespace then
      if acc.isEmpty then splitWsAux cs [] else acc.reverse :: splitWsAux cs []
    else splitWsAux cs (c :: acc)

/-- Python `str.split()` with no separator: split on whitespace runs,
dropping empty pieces. -/
def pySplit (s : String) : List String :=
  (splitWsAux s.toList []).map String.mk

/-- Python `str.strip()`: drop whitespace from both ends. -/
def pyStrip (s : String) : String :=
  String.mk (((s.toList.dropWhile Char.isWhitespace).reverse.dropWhile
    Char.isWhitespace).reverse)

/-- Python `str.lower()` over ASCII. -/
def pyLower (s : String) : String :=
  String.mk (s.toList.map Char.toLower)

/-- Python `str.startswith(pre)`. -/
def pyStartsWith (s pre : String) : Bool :=
  pre.toList.isPrefixOf s.toList

/-- Python `l[-n:]`: the last `n` elements of a list. -/
def pyTakeLast (n : Nat) (l : List α) : List α :=
  l.drop (l.length - n)

/-- Python truthiness of an optional string: `None` and the empty string
are falsy. -/
def pyTruthy : Option String → Bool
  | none => false
  | some s => !s.toList.isEmpty

/-- Contiguous-sublist test used to embed the Python `in` operator on
strings. -/
def listIsInfix (pat : List Char) : List Char → Bool
  | [] => pat.isEmpty
  | c :: t => pat.isPrefixOf (c :: t) || listIsInfix pat t

/-- Python `pat in s` on strings. -/
def strContains (s pat : String) : Bool :=
  listIsInfix pat.toList s.toList

/-- Case-insensitive literal-prefix test: the embedding of matching a
lowercase literal under `re.IGNORECASE` at the current position. -/
def lowerStartsWith (cs : List Char) (lit : String) : Bool :=
  lit.toList.isPrefixOf (cs.map Char.toLower)

/-! ## Name-span matching

`main.py` lines 81-85 use the span `[A-Z][a-z]+(?: [A-Z][a-z]+)*` under
`re.IGNORECASE`: one or more words of at least two ASCII letters (of any
case, since `IGNORECASE` extends both classes to all letters), separated
by single spaces.  The span is greedy, backtracking a whole word at a
time. -/

/-- Match one name word (two or more ASCII letters) maximally at the
head of the input; return the word and the rest. -/
def matchWord (cs : List Char) : Option (List Char × List Char) :=
  if 2 ≤ (cs.takeWhile Char.isAlpha).length then
    some (cs.takeWhile Char.isAlpha, cs.drop (cs.takeWhile Char.isAlpha).length)
  else none

/-- Fuel-indexed worker for `nameSplits`; each successful word consumes
at least two characters, so fuel equal to the input length suffices. -/
def nameSplitsFuel : Nat → List Char → List (List Char × List Char)
  | 0, _ => []
  | fuel + 1, cs =>
    match matchWord cs with
    | none => []
    | some (w, c :: r) =>
      if c = ' ' then
        ((nameSplitsFuel fuel r).map (fun p => (w ++ c :: p.1, p.2))) ++ [(w, c :: r)]
      else [(w, c :: r)]
    | some (w, []) => [(w, [])]

/-- All ways the greedy name span can match at the head of the input,
longest (most words) first, each paired with the remaining input. -/
def nameSplits (cs : List Char) : List (List Char × List Char) :=
  nameSplitsFuel (cs.length + 1) cs

/-- First (hence greediest) name split whose remainder satisfies the
continuation test. -/
def nameWithCont (cont : List Char → Bool) (cs : List Char) : Option (List Char) :=
  (((nameSplits cs).filter (fun p => cont p.2)).head?).map (fun p => p.1)

/-- Continuation of pattern 1: a space then one of say/think/mention/discuss. -/
def p1cont (rest : List Char) : Bool :=
  lowerStartsWith rest (" say") || lowerStartsWith rest (" think") ||
  lowerStartsWith rest (" mention") || lowerStartsWith rest (" discuss")

/-- Continuation of pattern 2: apostrophe-s then approach/view/perspective/
thought (the optional plural s in `thoughts?` makes the bare stem enough). -/
def p2cont (rest : List Char) : Bool :=
  lowerStartsWith rest (aposS ++ "s approach") || lowerStartsWith rest (aposS ++ "s view") ||
  lowerStartsWith rest (aposS ++ "s perspective") || lowerStartsWith rest (aposS ++ "s thought")

/-- Leftmost match of pattern 1, `what (?:did|does) NAME
(?:say|think|mention|discuss)`, returning the captured name span. -/
def scanP1 : List Char → Option (List Char)
  | [] => none
  | c :: cs =>
    let here :=
      if lowerStartsWith (c :: cs) ("what did ") then
        nameWithCont p1cont ((c :: cs).drop 9)
      else if lowerStartsWith (c :: cs) ("what does ") then
        nameWithCont p1cont ((c :: cs).drop 10)
      else none
    match here with
    | some n => some n
    | none => scanP1 cs

/-- Leftmost match of pattern 2, `NAME's
(?:approach|view|perspective|thoughts?)`. -/
def scanP2 : List Char → Option (List Char)
  | [] => none
  | c :: cs =>
    match nameWithCont p2cont (c :: cs) with
    | some n => some n
    | none => scanP2 cs

/-- Leftmost match of pattern 3, `according to NAME` (the name span ends
the pattern, so the greedy maximum wins unconditionally). -/
def scanP3 : List Char → Option (List Char)
  | [] => none
  | c :: cs =>
    let here :=
      if lowerStartsWith (c :: cs) ("according to ") then
        ((nameSplits ((c :: cs).drop 13)).head?).map (fun p => p.1)
      else none
    match here with
    | some n => some n
    | none => scanP3 cs

/-- Embedding of `extract_guest_name` (main.py lines 77-92): the three
patterns tried in order, first match wins, captured group stripped. -/
def extract_guest_name (query : String) : Option String :=
  let cs := query.toList
  match scanP1 cs with
  | some n => some (pyStrip (String.mk n))
  | none =>
    match scanP2 cs with
    | some n => some (pyStrip (String.mk n))
    | none => (scanP3 cs).map (fun n => pyStrip (String.mk n))

/-! ## Topic extraction -/

/-- Leftmost occurrence of a literal followed by at least one character
(the lazy `(.+?)` needs one); returns the remainder after the literal. -/
def scanLit (lit : String) : List Char → Option (List Char)
  | [] => none
  | c :: cs =>
    if lowerStartsWith (c :: cs) lit && !((c :: cs).drop lit.length).isEmpty then
      some ((c :: cs).drop lit.length)
    else scanLit lit cs

/-- The lazy capture of `(.+?)[\x3f]?$`: everything to the end of the
string, minus exactly one trailing question mark when one is present and
the capture would stay nonempty. -/
def lazyCapture (rest : List Char) : List Char :=
  if rest.getLast? = some '?' ∧ 2 ≤ rest.length then rest.dropLast else rest

/-- The `re.sub` on main.py line 110: drop the maximal trailing run of
question marks, periods and exclamation marks. -/
def stripTrailingPunct (cs : List Char) : List Char :=
  (cs.reverse.dropWhile (fun c => (c == '?') || (c == '.') || (c == '!'))).reverse

/-- Embedding of `extract_topic_from_guest_query` (main.py lines
94-113): six trailing-phrase patterns tried in order, captured topic
stripped of whitespace and then of trailing punctuation. -/
def extract_topic_from_guest_query (query : String) : Option String :=
  let cs := query.toList
  ([("say about "), ("think about "), ("mention about "), ("discuss "),
    ("on "), ("regarding ")].findSome?
    (fun lit => (scanLit lit cs).map
      (fun rest =>
        String.mk (stripTrailingPunct ((pyStrip (String.mk (lazyCapture rest))).toList)))))

/-! ## Intent classification -/

/-- The guest-indicator phrases of main.py line 119. -/
def guestPhrases : List String :=
  [("what did"), ("what does"), (aposS ++ "s approach"), (aposS ++ "s view")]

/-- The comparison keywords of main.py line 123. -/
def comparisonWords : List String :=
  [("compare"), ("vs"), ("versus"), ("difference"), ("contrast")]

/-- Embedding of `detect_query_type` (main.py lines 115-130).  The
guest-indicator test guards a truthiness check of the extracted name; a
present indicator with no extractable name falls through to the
comparison test. -/
def detect_query_type (query : String) : String :=
  let q := pyLower query
  if (guestPhrases.any (fun p => strContains q p)) && pyTruthy (extract_guest_name query) then
    "guest_specific"
  else if comparisonWords.any (fun w => strContains q w) then
    "comparison"
  else if pyStartsWith q ("how to") || pyStartsWith q ("how do") || pyStartsWith q ("how can") then
    "how_to"
  else if pyStartsWith q ("what is") || pyStartsWith q ("what are") then
    "definition"
  else
    "general"

/-! ## Rate limiter (src/backend/rate_limiter.py) -/

/-- The dictionary returned by `check_rate_limit`. -/
structure RateResult where
  allowed : Bool
  queries_remaining : Nat
  queries_today : Nat
deriving DecidableEq, Repr

/-- The in-memory `query_log` defaultdict: per-client timestamp lists,
defaulting to the empty list. -/
abbrev RLState := String → List Int

/-- Embedding of `check_rate_limit` (rate_limiter.py lines 11-38): prune
the client timestamps to the trailing 24-hour window, deny without
recording when the pruned count reaches the limit, otherwise record
`now` and report the remaining quota. -/
def check_rate_limit (log : RLState) (ip : String) (now : Int) (limit : Nat) :
    RateResult × RLState :=
  if limit ≤ ((log ip).filter (fun t => now - oneDay < t)).length then
    (⟨false, 0, ((log ip).filter (fun t => now - oneDay < t)).length⟩,
     fun a => if a = ip then (log ip).filter (fun t => now - oneDay < t) else log a)
  else
    (⟨true, limit - ((log ip).filter (fun t => now - oneDay < t)).length - 1,
      ((log ip).filter (fun t => now - oneDay < t)).length + 1⟩,
     fun a => if a = ip then (log ip).filter (fun t => now - oneDay < t) ++ [now]
              else log a)

/-- Driver running a sequence of checks for one client at the given
times; the Boolean records whether every check was admitted. -/
def runChecks (log : RLState) (ip : String) (limit : Nat) : List Int → RLState × Bool
  | [] => (log, true)
  | s :: rest =>
    let step := check_rate_limit log ip s limit
    let next := runChecks step.2 ip limit rest
    (next.1, step.1.allowed && next.2)

/-! ## Request pipeline data model (src/backend/main.py) -/

/-- One conversation turn, the dict appended on main.py lines 400-404. -/
structure Turn where
  query : String
  answer : String
  timestamp : Int
deriving DecidableEq, Repr

/-- One retrieved passage, the dict built on main.py lines 176-185.
Similarity is modelled as a rational. -/
structure Chunk where
  id : Nat
  episode_guest : String
  episode_title : String
  chunk_type : String
  text : String
  speaker : String
  keywords : List String
  similarity : Rat
deriving DecidableEq, Repr

/-- The response dict of main.py lines 416-424. -/
structure SearchResponse where
  query : String
  answer : String
  sources : List Chunk
  total_results : Nat
  conversation_length : Nat
  is_followup : Bool
  queries_remaining : Nat
deriving DecidableEq, Repr

/-- The HTTPExceptions the handler can raise. -/
inductive ApiError
  | verificationFailed
  | rateLimited
  | queryTooShort
  | conversationLimit
  | embeddingFailed
deriving DecidableEq, Repr

/-- Observable side effects of a request, in order of occurrence. -/
inductive Event
  | dbWrite (query ip : String)
  | embedCall (query : String)
  | searchCall (limit : Nat) (filter_guest : Option String)
  | genCall
deriving DecidableEq, Repr

/-- Event classifiers. -/
def isEmbedCall : Event → Bool
  | .embedCall _ => true
  | _ => false

def isSearchCall : Event → Bool
  | .searchCall _ _ => true
  | _ => false

def isGenCall : Event → Bool
  | .genCall => true
  | _ => false

/-- External collaborators, modelled as oracles: the turnstile
verification outcome, whether the query-log insert succeeds (its
exception is swallowed), the embedding service (`none` = the request
fails), the vector store, and the generation service (an error value is
degraded to a textual marker). -/
structure Oracles where
  turnstileOk : Bool
  dbLogOk : Bool
  embed : String → Option (List Rat)
  search : List Rat → Nat → Option String → List Chunk
  generate : String → Except String String

/-- Process-wide mutable state: `conversation_sessions`, the rate
limiter log, and the query_log table. -/
structure ServerState where
  sessions : String → List Turn
  rl : RLState
  dbLog : List (String × String)

/-! ## Pipeline pieces -/

/-- Embedding of the quality gate (main.py lines 394-396): keep chunks
with similarity strictly above 0.35; when fewer than three survive, fall
back to the first three chunks by rank. -/
def qualityGate (chunks : List Chunk) : List Chunk :=
  let hq := chunks.filter (fun c => mkRat 35 100 < c.similarity)
  if hq.length < 3 then chunks.take 3 else hq

/-- Embedding of `synthesize_answer` (main.py lines 192-320).  The
prompt assembly (lines 195-301) only builds the text sent to the
generation collaborator; every later use of the return value observes
only the collaborator text on success and the degraded marker on
failure, which is what this models.  The conversation context argument
is threaded for fidelity but cannot influence the outcome. -/
def synthesize_answer (gen : Except String String)
    (_conversation_context : Option String) : String :=
  match gen with
  | .ok text => text
  | .error e => "Error: " ++ e

/-- The context string of main.py lines 364-369: the last two turns as
Q/A pairs, answers truncated to 250 characters. -/
def mkConversationContext (session : List Turn) : Option String :=
  if session.isEmpty then none
  else some (String.intercalate "\n" ((pyTakeLast 2 session).map
    (fun qa => "Q: " ++ qa.query ++ "\nA: " ++ qa.answer.take 250 ++ "...")))

/-- The conversational carry-forward (main.py lines 371-372): with a
prior turn and a raw query of fewer than five words, prepend the
previous query. -/
def carry_forward (session : List Turn) (query : String) : String :=
  match session.getLast? with
  | none => query
  | some prev =>
    if (pySplit query).length < 5 then prev.query ++ " " ++ query else query

/-- The guest-specific rewrite (main.py lines 374-388): returns the
result limit, the optional guest filter, and the effective search
query.  A guest-specific query with a truthy extracted topic searches
the topic alone with limit 10 and the guest filter; a guest-specific
query without one keeps the incoming search query; anything else uses
limit 5 and no filter. -/
def guest_rewrite (query searchQuery : String) : Nat × Option String × String :=
  let query_type := detect_query_type query
  let detected_guest :=
    if query_type = "guest_specific" then extract_guest_name query else none
  let detected_topic :=
    if query_type = "guest_specific" then extract_topic_from_guest_query query else none
  if query_type = "guest_specific" ∧ pyTruthy detected_topic then
    (10, detected_guest, detected_topic.getD (""))
  else if query_type = "guest_specific" then
    (10, detected_guest, searchQuery)
  else
    (5, none, searchQuery)

/-- The rewrite stage of the handler (main.py lines 361-388): the
carry-forward applied to the client session followed by the
guest-specific rewrite. -/
def handlerParams (st : ServerState) (ip query : String) : Nat × Option String × String :=
  guest_rewrite query (carry_forward (st.sessions ip) query)

/-- The state after the rate-limit bookkeeping (main.py line 332) and
the best-effort query-log insert (lines 337-351, exception swallowed). -/
def stAfterLog (o : Oracles) (st : ServerState) (ip query : String) (now : Int) :
    ServerState :=
  let st1 : ServerState := { st with rl := (check_rate_limit st.rl ip now 10).2 }
  if o.dbLogOk then { st1 with dbLog := st1.dbLog ++ [(query, ip)] } else st1

/-- The events of the query-log stage. -/
def logEvents (o : Oracles) (query ip : String) : List Event :=
  if o.dbLogOk then [.dbWrite query ip] else []

/-- The response dict of main.py lines 416-424 on the success path:
sources are the first five gated chunks, total_results the full gated
count, conversation_length the post-append session length. -/
def successResponse (o : Oracles) (st : ServerState) (ip query : String) (now : Int)
    (emb : List Rat) : SearchResponse :=
  let hq := qualityGate (o.search emb (handlerParams st ip query).1
    (handlerParams st ip query).2.1)
  let answer := synthesize_answer (o.generate query) (mkConversationContext (st.sessions ip))
  let session2 := st.sessions ip ++ [⟨query, answer, now⟩]
  { query := query, answer := answer, sources := hq.take 5, total_results := hq.length,
    conversation_length := session2.length, is_followup := 1 < session2.length,
    queries_remaining := (check_rate_limit st.rl ip now 10).1.queries_remaining }

/-- The state after a successful request: the turn appended and trimmed
to the last five (main.py lines 400-406), then every client session
swept of turns older than 24 hours (lines 409-414). -/
def successState (o : Oracles) (st : ServerState) (ip query : String) (now : Int) :
    ServerState :=
  let answer := synthesize_answer (o.generate query) (mkConversationContext (st.sessions ip))
  let session2 := st.sessions ip ++ [⟨query, answer, now⟩]
  { stAfterLog o st ip query now with
    sessions := fun a =>
      (if a = ip then pyTakeLast 5 session2 else st.sessions a).filter
        (fun qa => now - oneDay < qa.timestamp) }

/-- The events of a successful request, in order. -/
def successEvents (o : Oracles) (st : ServerState) (ip query : String) : List Event :=
  logEvents o query ip ++
    [.embedCall (handlerParams st ip query).2.2,
     .searchCall (handlerParams st ip query).1 (handlerParams st ip query).2.1,
     .genCall]

/-- Embedding of the `search-with-answer` handler (main.py lines
326-424): turnstile verification, rate limiting, best-effort query
logging, the short-query and conversation-limit guards, the rewrite
stage, the embedding and search collaborator calls, the quality gate,
synthesis, the session append trimmed to five turns, and the global
24-hour sweep.  Returns the response or error, the new state, and the
emitted events in order. -/
def search_with_answer (o : Oracles) (st : ServerState) (ip query : String)
    (now : Int) : Except ApiError SearchResponse × ServerState × List Event :=
  if o.turnstileOk = false then (.error .verificationFailed, st, [])
  else if (check_rate_limit st.rl ip now 10).1.allowed = false then
    (.error .rateLimited, { st with rl := (check_rate_limit st.rl ip now 10).2 }, [])
  else if query = "" ∨ (pyStrip query).length < 3 then
    (.error .queryTooShort, stAfterLog o st ip query now, logEvents o query ip)
  else if 5 ≤ (st.sessions ip).length then
    (.error .conversationLimit, stAfterLog o st ip query now, logEvents o query ip)
  else
    match o.embed (handlerParams st ip query).2.2 with
    | none =>
      (.error .embeddingFailed, stAfterLog o st ip query now,
       logEvents o query ip ++ [.embedCall (handlerParams st ip query).2.2])
    | some emb =>
      (.ok (successResponse o st ip query now emb),
       successState o st ip query now,
       successEvents o st ip query)

/-! ## Spec-side definitions

These follow the words of the specification, to be compared with the
source-derived definitions above. -/

/-- A classification rule of the specification: a predicate and the
intent label it assigns. -/
structure Rule where
  pred : String → Bool
  label : String

/-- The ordered rule list of the spec (section 4.3): guest indicator
with an extractable name, then comparison keywords, then how-to
openings, then definition openings. -/
def intentRules : List Rule :=
  [⟨fun query => (guestPhrases.any (fun p => strContains (pyLower query) p)) &&
      pyTruthy (extract_guest_name query), "guest_specific"⟩,
   ⟨fun query => comparisonWords.any (fun w => strContains (pyLower query) w), "comparison"⟩,
   ⟨fun query => pyStartsWith (pyLower query) ("how to") ||
      pyStartsWith (pyLower query) ("how do") || pyStartsWith (pyLower query) ("how can"), "how_to"⟩,
   ⟨fun query => pyStartsWith (pyLower query) ("what is") ||
      pyStartsWith (pyLower query) ("what are"), "definition"⟩]

/-- Spec-modelled classifier: first matching rule wins, else general. -/
def classifySpec (query : String) : String :=
  match intentRules.find? (fun r => r.pred query) with
  | some r => r.label
  | none => "general"

/-! ## Concrete fixtures used by the claims -/

/-- A chunk with fixed metadata and the given similarity. -/
def exChunk (i : Nat) (sim : Rat) : Chunk :=
  ⟨i, "G", "T", "qa", "t", "S", [], sim⟩

/-- Chunks with similarities 0.5, 0.4, 0.1, 0.05. -/
def gateChunksA : List Chunk :=
  [exChunk 0 (mkRat 1 2), exChunk 1 (mkRat 2 5), exChunk 2 (mkRat 1 10),
   exChunk 3 (mkRat 1 20)]

/-- Chunks with similarities 0.2, 0.1, 0.05. -/
def gateChunksB : List Chunk :=
  [exChunk 0 (mkRat 1 5), exChunk 1 (mkRat 1 10), exChunk 2 (mkRat 1 20)]

/-- The query of the classification-precedence example. -/
def qLenny : String := ("What is Lenny") ++ aposS ++ ("s approach to compare frameworks?")

/-- The query of the extraction round-trip example. -/
def qChesky : String := "What did Brian Chesky say about trust?"

/-- The round-trip query with an uncapitalized name span. -/
def qCheskyLower : String := "what did brian chesky say about trust"

/-- A prior turn whose query is the follow-up example's first question. -/
def airbnbTurn : Turn :=
  ⟨("What about Airbnb") ++ aposS ++ ("s early growth?"), "a", 0⟩

/-- The short elliptical follow-up of the carry-forward example. -/
def qUber : String := "And Uber?"

/-- A short query that is guest-specific with an extractable topic. -/
def qAnn : String := ("Ann") ++ aposS ++ ("s view on trust?")

/-- A well-behaved oracle bundle: turnstile passes, logging succeeds,
embeddings are the empty vector, the store returns the 0.5/0.4/0.1/0.05
chunks, generation succeeds. -/
def oW : Oracles :=
  { turnstileOk := true, dbLogOk := true,
    embed := fun _ => some [],
    search := fun _ _ _ => gateChunksA,
    generate := fun _ => .ok ("ans") }

/-- The oracle bundle with a failing generation collaborator. -/
def oWerr : Oracles := { oW with generate := fun _ => .error ("boom") }

/-- The empty server state. -/
def stEmpty : ServerState :=
  { sessions := fun _ => [], rl := fun _ => [], dbLog := [] }

/-- A fixed turn for pre-filled sessions. -/
def turnW : Turn := ⟨"q", "a", 0⟩

/-- A state whose every session already holds five turns. -/
def stW5 : ServerState :=
  { sessions := fun _ => [turnW, turnW, turnW, turnW, turnW],
    rl := fun _ => [], dbLog := [] }

/-! ## C3: quality gate -/

/-- C3 counterexample: for similarities [0.5, 0.4, 0.1, 0.05] the claim
predicts a gated set of exactly the first two chunks, but only two pass
the 0.35 threshold, so the code's fewer-than-three fallback fires and
the gated set is the first three chunks, not the first two. -/
theorem C3_quality_gate_counterexample :
    qualityGate gateChunksA ≠ gateChunksA.take 2 := by decide

/-- C3 amended: the gated set is exactly the chunks with similarity
above 0.35 whenever at least three pass; if fewer than three pass, it is
the top three chunks by rank regardless of score.  In particular for
similarities [0.5, 0.4, 0.1, 0.05] the gated set is the first THREE
chunks (two pass, so the fallback applies), and for [0.2, 0.1, 0.05] it
is all three. -/
theorem C3_quality_gate :
    (∀ chunks : List Chunk,
      (3 ≤ (chunks.filter (fun c => mkRat 35 100 < c.similarity)).length →
        qualityGate chunks = chunks.filter (fun c => mkRat 35 100 < c.similarity)) ∧
      ((chunks.filter (fun c => mkRat 35 100 < c.similarity)).length < 3 →
        qualityGate chunks = chunks.take 3)) ∧
    qualityGate gateChunksA = gateChunksA.take 3 ∧
    qualityGate gateChunksB = gateChunksB := by
  refine ⟨fun chunks => ⟨fun h => ?_, fun h => ?_⟩, by decide, by decide⟩
  · simp only [qualityGate]
    rw [if_neg (by omega)]
  · simp only [qualityGate]
    rw [if_pos h]

/-- C3 witness: the fallback branch evaluated on the all-low example. -/
theorem C3_quality_gate_witness :
    qualityGate gateChunksB = gateChunksB.take 3 :=
  (C3_quality_gate.1 gateChunksB).2 (by decide)

/-! ## C7: case sensitivity of the name span -/

/-- C7 counterexample: the claim says extraction returns none whenever
the candidate name span is not capitalized, but `re.IGNORECASE` extends
the `[A-Z]` and `[a-z]` classes to both cases, so the all-lowercase
query extracts a name. -/
theorem C7_case_sensitivity_counterexample :
    extract_guest_name qCheskyLower ≠ none := by decide

/-- C7 amended: keyword matching is case-insensitive and, because
`re.IGNORECASE` also applies to the character classes of the name span,
the span itself is matched case-insensitively as well: the uncapitalized
query extracts the lowercase span, exactly as the capitalized variant
extracts the capitalized one. -/
theorem C7_name_span_case_insensitive :
    extract_guest_name qCheskyLower = some ("brian chesky") ∧
    extract_guest_name ("What did Brian Chesky say about trust") =
      some ("Brian Chesky") := by
  exact ⟨by decide, by decide⟩

/-! ## C9: extraction round trip -/

/-- C9: on the query "What did Brian Chesky say about trust?" guest-name
extraction yields "Brian Chesky" and topic extraction yields "trust",
with the trailing question mark stripped from the captured topic. -/
theorem C9_extraction_roundtrip :
    extract_guest_name qChesky = some ("Brian Chesky") ∧
    extract_topic_from_guest_query qChesky = some ("trust") := by
  exact ⟨by decide, by decide⟩

/-! ## C4: intent classification precedence -/

/-- C4: the classifier agrees with the spec's ordered first-match rule
cascade on every query, and the example query — which contains a
guest-indicator phrase with an extractable name, a comparison keyword,
and a definition opening — classifies as guest_specific because the
guest rule precedes the comparison and definition rules. -/
theorem C4_intent_precedence :
    (∀ query : String, detect_query_type query = classifySpec query) ∧
    detect_query_type qLenny = "guest_specific" ∧
    (comparisonWords.any (fun w => strContains (pyLower qLenny) w)) = true ∧
    pyStartsWith (pyLower qLenny) ("what is") = true := by
  refine ⟨fun query => ?_, by decide, by decide, by decide⟩
  by_cases h1 : ((guestPhrases.any fun p => strContains (pyLower query) p) &&
      pyTruthy (extract_guest_name query)) = true
  · simp [detect_query_type, classifySpec, intentRules, List.find?, h1]
  · by_cases h2 : (comparisonWords.any fun w => strContains (pyLower query) w) = true
    · simp [detect_query_type, classifySpec, intentRules, List.find?, h1, h2]
    · by_cases h3 : (pyStartsWith (pyLower query) ("how to") ||
          pyStartsWith (pyLower query) ("how do") ||
          pyStartsWith (pyLower query) ("how can")) = true
      · simp [detect_query_type, classifySpec, intentRules, List.find?, h1, h2, h3]
      · by_cases h4 : (pyStartsWith (pyLower query) ("what is") ||
            pyStartsWith (pyLower query) ("what are")) = true
        · simp [detect_query_type, classifySpec, intentRules, List.find?, h1, h2, h3, h4]
        · simp [detect_query_type, classifySpec, intentRules, List.find?, h1, h2, h3, h4]

/-! ## C6: conversational carry-forward -/

/-- C6 counterexample: the session has a prior turn and "Ann's view on
trust?" has four words, yet the effective search query is the extracted
topic "trust" — the guest-specific rewrite overrides the carry-forward
concatenation, so the claimed universal concatenation fails here. -/
theorem C6_carry_forward_counterexample :
    (guest_rewrite qAnn (carry_forward [airbnbTurn] qAnn)).2.2 = "trust" ∧
    ("trust" : String) ≠ airbnbTurn.query ++ " " ++ qAnn := by
  exact ⟨by decide, by decide⟩

/-- C6 amended: with a prior turn and a raw query of fewer than five
words the carried-forward query is the previous query concatenated with
the current one, and this is the effective search query passed to the
embedding collaborator unless the query classifies guest_specific with a
truthy extracted topic, in which case the topic alone replaces it.  The
spec's own example ("And Uber?" after the Airbnb question) is not
guest-specific, so its effective query is exactly the concatenation. -/
theorem C6_carry_forward :
    (∀ (session : List Turn) (prev : Turn) (query : String),
       session.getLast? = some prev → (pySplit query).length < 5 →
       carry_forward session query = prev.query ++ " " ++ query) ∧
    (∀ (searchQuery query : String),
       detect_query_type query ≠ "guest_specific" ∨
         pyTruthy (extract_topic_from_guest_query query) = false →
       (guest_rewrite query searchQuery).2.2 = searchQuery) ∧
    (∀ (o : Oracles) (st : ServerState) (ip query : String) (now : Int) (q0 : String),
       Event.embedCall q0 ∈ (search_with_answer o st ip query now).2.2 →
       q0 = (handlerParams st ip query).2.2) ∧
    carry_forward [airbnbTurn] qUber = airbnbTurn.query ++ " " ++ qUber ∧
    (guest_rewrite qUber (carry_forward [airbnbTurn] qUber)).2.2 =
      airbnbTurn.query ++ " " ++ qUber := by
  refine ⟨?_, ?_, ?_, by decide, by decide⟩
  · intro session prev query hlast hlen
    simp only [carry_forward, hlast]
    rw [if_pos hlen]
  · intro searchQuery query h
    by_cases hg : detect_query_type query = "guest_specific"
    · rcases h with h' | h'
      · exact absurd hg h'
      · simp [guest_rewrite, hg, h']
    · simp [guest_rewrite, hg]
  · intro o st ip query now q0 hmem
    unfold search_with_answer at hmem
    split at hmem
    · simp at hmem
    · split at hmem
      · simp at hmem
      · split at hmem
        · simp only [logEvents] at hmem
          split at hmem <;> simp at hmem
        · split at hmem
          · simp only [logEvents] at hmem
            split at hmem <;> simp at hmem
          · split at hmem
            · simp only [logEvents, List.mem_append] at hmem
              rcases hmem with hmem | hmem
              · split at hmem <;> simp at hmem
              · simpa using hmem
            · simp only [successEvents, logEvents, List.mem_append] at hmem
              rcases hmem with hmem | hmem
              · split at hmem <;> simp at hmem
              · simpa using hmem

/-- C6 witness: the amended statement instantiated on the Airbnb/Uber
example. -/
theorem C6_carry_forward_witness :
    carry_forward [airbnbTurn] qUber = airbnbTurn.query ++ " " ++ qUber ∧
    (guest_rewrite qUber (carry_forward [airbnbTurn] qUber)).2.2 =
      carry_forward [airbnbTurn] qUber :=
  ⟨C6_carry_forward.1 [airbnbTurn] airbnbTurn qUber (by decide) (by decide),
   C6_carry_forward.2.1 (carry_forward [airbnbTurn] qUber) qUber (by decide)⟩

/-! ## C1: rate limiter -/

/-- An admitted check at a time inside the window `(t - oneDay, t]`
grows the client's in-window timestamp count by exactly one: the new
stamp lands in the window and pruning at time `s ≤ t` can only remove
stamps already outside the window at `t`. -/
theorem check_admitted_window_count (log : RLState) (ip : String) (limit : Nat)
    (s t : Int) (hs1 : t - oneDay < s) (hs2 : s ≤ t)
    (hall : (check_rate_limit log ip s limit).1.allowed = true) :
    (((check_rate_limit log ip s limit).2 ip).filter (fun x => t - oneDay < x)).length
      = ((log ip).filter (fun x => t - oneDay < x)).length + 1 := by
  unfold check_rate_limit at *
  split at hall
  · exact absurd hall (by simp)
  · next hlt =>
    rw [if_neg hlt]
    have hwin : ∀ x : Int, (decide (t - oneDay < x) && decide (s - oneDay < x))
        = decide (t - oneDay < x) := by
      intro x
      by_cases hx : t - oneDay < x
      · have hsx : s - oneDay < x := by omega
        simp [hx, hsx]
      · simp [hx]
    simp [List.filter_filter, List.filter_append, hwin, hs1]

/-- Running a sequence of all-admitted checks at times inside the
window `(t - oneDay, t]` grows the client's in-window timestamp count by
the length of the sequence. -/
theorem runChecks_window_count (ip : String) (limit : Nat) (t : Int) :
    ∀ (ts : List Int) (log : RLState),
      (∀ s ∈ ts, t - oneDay < s ∧ s ≤ t) →
      (runChecks log ip limit ts).2 = true →
      (((runChecks log ip limit ts).1 ip).filter (fun x => t - oneDay < x)).length
        = ((log ip).filter (fun x => t - oneDay < x)).length + ts.length := by
  intro ts
  induction ts with
  | nil => intro log _ _; rfl
  | cons s rest ih =>
    intro log hwin hok
    simp only [runChecks, Bool.and_eq_true] at hok ⊢
    have hs := hwin s (by simp)
    have hrest : ∀ x ∈ rest, t - oneDay < x ∧ x ≤ t := fun x hx => hwin x (by simp [hx])
    have h1 := check_admitted_window_count log ip limit s t hs.1 hs.2 hok.1
    have h2 := ih ((check_rate_limit log ip s limit).2) hrest hok.2
    rw [h2, h1]
    simp only [List.length_cons]
    omega

/-- C1: a single check first prunes the client's timestamps to the
trailing 24-hour window; when the pruned count reaches the limit it
returns allowed = false with queries_remaining = 0 and stores only the
pruned list, otherwise it appends the current time and returns
allowed = true with queries_remaining = limit - count - 1.
Consequently, after a sequence of at least `limit` admitted checks all
lying within 24 hours of a time `t`, the next check at `t` is denied. -/
theorem C1_rate_limiter :
    (∀ (log : RLState) (ip : String) (now : Int) (limit : Nat),
      ((limit ≤ ((log ip).filter (fun x => now - oneDay < x)).length →
        (check_rate_limit log ip now limit).1 =
          ⟨false, 0, ((log ip).filter (fun x => now - oneDay < x)).length⟩ ∧
        (check_rate_limit log ip now limit).2 ip =
          (log ip).filter (fun x => now - oneDay < x)) ∧
       (((log ip).filter (fun x => now - oneDay < x)).length < limit →
        (check_rate_limit log ip now limit).1 =
          ⟨true, limit - ((log ip).filter (fun x => now - oneDay < x)).length - 1,
           ((log ip).filter (fun x => now - oneDay < x)).length + 1⟩ ∧
        (check_rate_limit log ip now limit).2 ip =
          (log ip).filter (fun x => now - oneDay < x) ++ [now]))) ∧
    (∀ (log : RLState) (ip : String) (limit : Nat) (ts : List Int) (t : Int),
      limit ≤ ts.length →
      (∀ s ∈ ts, t - oneDay < s ∧ s ≤ t) →
      (runChecks log ip limit ts).2 = true →
      (check_rate_limit ((runChecks log ip limit ts).1) ip t limit).1.allowed = false) := by
  constructor
  · intro log ip now limit
    constructor
    · intro h
      unfold check_rate_limit
      rw [if_pos h]
      exact ⟨rfl, by simp⟩
    · intro h
      unfold check_rate_limit
      rw [if_neg (by omega)]
      exact ⟨rfl, by simp⟩
  · intro log ip limit ts t hlen hwin hok
    have hcount := runChecks_window_count ip limit t ts log hwin hok
    unfold check_rate_limit
    rw [if_pos (by omega)]

/-- C1 witness: from an empty log with limit 2, two admitted checks at
time 0 make the third check at time 0 denied. -/
theorem C1_rate_limiter_witness :
    (check_rate_limit ((runChecks (fun _ => []) "c" 2 [0, 0]).1) "c" 0 2).1.allowed
      = false :=
  C1_rate_limiter.2 (fun _ => []) "c" 2 [0, 0] 0 (by decide)
    (by intro s hs; simp at hs; subst hs; constructor <;> decide) (by rfl)

/-! ## Shared handler lemmas -/

/-- The rate-limit and query-log stages leave the sessions untouched. -/
theorem stAfterLog_sessions (o : Oracles) (st : ServerState) (ip query : String)
    (now : Int) : (stAfterLog o st ip query now).sessions = st.sessions := by
  unfold stAfterLog
  split <;> rfl

/-- The rate-limit and query-log stages store the rate-check state. -/
theorem stAfterLog_rl (o : Oracles) (st : ServerState) (ip query : String)
    (now : Int) :
    (stAfterLog o st ip query now).rl = (check_rate_limit st.rl ip now 10).2 := by
  unfold stAfterLog
  split <;> rfl

/-- The query-log stage emits no collaborator-call events. -/
theorem logEvents_no_calls (o : Oracles) (query ip : String) :
    (logEvents o query ip).any isEmbedCall = false ∧
    (logEvents o query ip).any isSearchCall = false ∧
    (logEvents o query ip).any isGenCall = false := by
  unfold logEvents
  split <;> simp [isEmbedCall, isSearchCall, isGenCall]

/-- The last `n` elements are at most `n` elements. -/
theorem pyTakeLast_length_le (n : Nat) (l : List α) :
    (pyTakeLast n l).length ≤ n := by
  simp only [pyTakeLast, List.length_drop]
  omega

/-- Taking the last `n` of at most `n` elements changes nothing. -/
theorem pyTakeLast_of_le (n : Nat) (l : List α) (h : l.length ≤ n) :
    pyTakeLast n l = l := by
  simp [pyTakeLast, Nat.sub_eq_zero_of_le h]

/-- A denied check stores exactly the pruned timestamps. -/
theorem check_denied_state (log : RLState) (ip : String) (now : Int) (limit : Nat)
    (h : (check_rate_limit log ip now limit).1.allowed = false) :
    (check_rate_limit log ip now limit).2 ip =
      (log ip).filter (fun x => now - oneDay < x) := by
  unfold check_rate_limit at h ⊢
  split
  · simp
  · next hc =>
    rw [if_neg hc] at h
    simp at h

/-- An admitted check stores the pruned timestamps plus the new one. -/
theorem check_allowed_state (log : RLState) (ip : String) (now : Int) (limit : Nat)
    (h : (check_rate_limit log ip now limit).1.allowed = true) :
    (check_rate_limit log ip now limit).2 ip =
      (log ip).filter (fun x => now - oneDay < x) ++ [now] := by
  unfold check_rate_limit at h ⊢
  split
  · next hc =>
    rw [if_pos hc] at h
    simp at h
  · simp

/-- The rewrite stage always selects limit 10 or limit 5. -/
theorem guest_rewrite_limit (query searchQuery : String) :
    (guest_rewrite query searchQuery).1 = 10 ∨
    (guest_rewrite query searchQuery).1 = 5 := by
  by_cases hg : detect_query_type query = "guest_specific"
  · by_cases ht : pyTruthy (extract_topic_from_guest_query query) = true
    · left
      simp [guest_rewrite, hg, ht]
    · left
      simp [guest_rewrite, hg, ht]
  · right
    simp [guest_rewrite, hg]

/-! ## C2: session length invariant -/

/-- C2: the five-turn session bound is preserved by every request (on
the success path the appended session is trimmed to its last five turns
and the sweep only removes turns), and a request arriving when the
client's session already holds five turns is rejected with no embedding
call and no vector-search call. -/
theorem C2_session_bound :
    (∀ (o : Oracles) (st : ServerState) (ip query : String) (now : Int),
       (∀ c, (st.sessions c).length ≤ 5) →
       ∀ c, (((search_with_answer o st ip query now).2.1).sessions c).length ≤ 5) ∧
    (∀ (o : Oracles) (st : ServerState) (ip query : String) (now : Int),
       5 ≤ (st.sessions ip).length →
       (∃ e, (search_with_answer o st ip query now).1 = .error e) ∧
       ((search_with_answer o st ip query now).2.2).any isEmbedCall = false ∧
       ((search_with_answer o st ip query now).2.2).any isSearchCall = false) := by
  constructor
  · intro o st ip query now hbound c
    unfold search_with_answer
    by_cases h1 : o.turnstileOk = false
    · rw [if_pos h1]
      exact hbound c
    rw [if_neg h1]
    by_cases h2 : (check_rate_limit st.rl ip now 10).1.allowed = false
    · rw [if_pos h2]
      exact hbound c
    rw [if_neg h2]
    by_cases h3 : query = "" ∨ (pyStrip query).length < 3
    · rw [if_pos h3, stAfterLog_sessions]
      exact hbound c
    rw [if_neg h3]
    by_cases h4 : 5 ≤ (st.sessions ip).length
    · rw [if_pos h4, stAfterLog_sessions]
      exact hbound c
    rw [if_neg h4]
    cases hemb : o.embed (handlerParams st ip query).2.2 with
    | none =>
      rw [stAfterLog_sessions]
      exact hbound c
    | some emb =>
      simp only [successState]
      refine le_trans (List.length_filter_le _ _) ?_
      by_cases hc : c = ip
      · rw [if_pos hc]
        exact pyTakeLast_length_le 5 _
      · rw [if_neg hc]
        exact hbound c
  · intro o st ip query now h5
    unfold search_with_answer
    by_cases h1 : o.turnstileOk = false
    · rw [if_pos h1]
      exact ⟨⟨.verificationFailed, rfl⟩, rfl, rfl⟩
    rw [if_neg h1]
    by_cases h2 : (check_rate_limit st.rl ip now 10).1.allowed = false
    · rw [if_pos h2]
      exact ⟨⟨.rateLimited, rfl⟩, rfl, rfl⟩
    rw [if_neg h2]
    by_cases h3 : query = "" ∨ (pyStrip query).length < 3
    · rw [if_pos h3]
      exact ⟨⟨.queryTooShort, rfl⟩, (logEvents_no_calls o query ip).1,
        (logEvents_no_calls o query ip).2.1⟩
    rw [if_neg h3, if_pos h5]
    exact ⟨⟨.conversationLimit, rfl⟩, (logEvents_no_calls o query ip).1,
      (logEvents_no_calls o query ip).2.1⟩

/-- C2 witness: a full session rejects the next query without retrieval. -/
theorem C2_session_bound_witness :
    (((search_with_answer oW stW5 "ip" ("tell me about growth") 0).2.1).sessions
      "ip").length ≤ 5 ∧
    (∃ e, (search_with_answer oW stW5 "ip" ("tell me about growth") 0).1 =
      .error e) ∧
    ((search_with_answer oW stW5 "ip" ("tell me about growth") 0).2.2).any
      isEmbedCall = false :=
  ⟨C2_session_bound.1 oW stW5 "ip" ("tell me about growth") 0
    (fun c => by simp [stW5, turnW]) "ip",
   (C2_session_bound.2 oW stW5 "ip" ("tell me about growth") 0 (by decide)).1,
   (C2_session_bound.2 oW stW5 "ip" ("tell me about growth") 0 (by decide)).2.1⟩

/-! ## C5: client-error atomicity and fail-fast ordering -/

/-- C5 counterexample: the two-character query "hi" is rejected with the
specific short-query reason, yet the rejected request has already
changed per-client state: the client's quota timestamp list grows from
empty to one recorded stamp, and the query was written to the query
log — the rate-limit bookkeeping and the logging insert run before the
length check. -/
theorem C5_atomicity_counterexample :
    (search_with_answer oW stEmpty "ip" ("hi") 0).1 = .error .queryTooShort ∧
    ((search_with_answer oW stEmpty "ip" ("hi") 0).2.1).rl "ip" = [0] ∧
    stEmpty.rl "ip" = [] ∧
    ((search_with_answer oW stEmpty "ip" ("hi") 0).2.1).dbLog = [("hi", "ip")] ∧
    stEmpty.dbLog = [] := by
  exact ⟨rfl, by decide, rfl, rfl, rfl⟩

/-- C5 amended: every rejection that is not the embedding failure
carries its specific reason, leaves every session untouched and happens
before the embedding, vector-search and generation collaborator calls;
a quota-exceeded rejection records no new quota timestamp (the stored
list is exactly the pruned window) and writes no query-log entry; but a
short-query or conversation-limit rejection happens after the quota
timestamp was recorded, so the stored list is the pruned window plus
the new stamp — those rejections consume a quota slot. -/
theorem C5_fail_fast :
    (∀ (o : Oracles) (st : ServerState) (ip query : String) (now : Int) (e : ApiError),
       (search_with_answer o st ip query now).1 = .error e →
       e ≠ .embeddingFailed →
       (∀ c, ((search_with_answer o st ip query now).2.1).sessions c = st.sessions c) ∧
       ((search_with_answer o st ip query now).2.2).any isEmbedCall = false ∧
       ((search_with_answer o st ip query now).2.2).any isSearchCall = false ∧
       ((search_with_answer o st ip query now).2.2).any isGenCall = false) ∧
    (∀ (o : Oracles) (st : ServerState) (ip query : String) (now : Int),
       (search_with_answer o st ip query now).1 = .error .rateLimited →
       ((search_with_answer o st ip query now).2.1).rl ip =
         (st.rl ip).filter (fun x => now - oneDay < x) ∧
       ((search_with_answer o st ip query now).2.1).dbLog = st.dbLog) ∧
    (∀ (o : Oracles) (st : ServerState) (ip query : String) (now : Int),
       ((search_with_answer o st ip query now).1 = .error .queryTooShort ∨
        (search_with_answer o st ip query now).1 = .error .conversationLimit) →
       ((search_with_answer o st ip query now).2.1).rl ip =
         (st.rl ip).filter (fun x => now - oneDay < x) ++ [now]) := by
  refine ⟨?_, ?_, ?_⟩
  · intro o st ip query now e herr hne
    unfold search_with_answer at *
    by_cases h1 : o.turnstileOk = false
    · rw [if_pos h1]
      exact ⟨fun c => rfl, rfl, rfl, rfl⟩
    rw [if_neg h1] at herr ⊢
    by_cases h2 : (check_rate_limit st.rl ip now 10).1.allowed = false
    · rw [if_pos h2]
      exact ⟨fun c => rfl, rfl, rfl, rfl⟩
    rw [if_neg h2] at herr ⊢
    by_cases h3 : query = "" ∨ (pyStrip query).length < 3
    · rw [if_pos h3]
      exact ⟨fun c => congrFun (stAfterLog_sessions o st ip query now) c,
        (logEvents_no_calls o query ip).1, (logEvents_no_calls o query ip).2.1,
        (logEvents_no_calls o query ip).2.2⟩
    rw [if_neg h3] at herr ⊢
    by_cases h4 : 5 ≤ (st.sessions ip).length
    · rw [if_pos h4]
      exact ⟨fun c => congrFun (stAfterLog_sessions o st ip query now) c,
        (logEvents_no_calls o query ip).1, (logEvents_no_calls o query ip).2.1,
        (logEvents_no_calls o query ip).2.2⟩
    rw [if_neg h4] at herr ⊢
    cases hemb : o.embed (handlerParams st ip query).2.2 with
    | none =>
      rw [hemb] at herr
      simp at herr
      exact absurd herr.symm hne
    | some emb =>
      rw [hemb] at herr
      simp at herr
  · intro o st ip query now herr
    unfold search_with_answer at *
    by_cases h1 : o.turnstileOk = false
    · rw [if_pos h1] at herr
      simp at herr
    rw [if_neg h1] at herr ⊢
    by_cases h2 : (check_rate_limit st.rl ip now 10).1.allowed = false
    · rw [if_pos h2]
      refine ⟨?_, rfl⟩
      simpa using check_denied_state st.rl ip now 10 h2
    rw [if_neg h2] at herr ⊢
    by_cases h3 : query = "" ∨ (pyStrip query).length < 3
    · rw [if_pos h3] at herr
      simp at herr
    rw [if_neg h3] at herr ⊢
    by_cases h4 : 5 ≤ (st.sessions ip).length
    · rw [if_pos h4] at herr
      simp at herr
    rw [if_neg h4] at herr ⊢
    cases hemb : o.embed (handlerParams st ip query).2.2 with
    | none =>
      rw [hemb] at herr
      simp at herr
    | some emb =>
      rw [hemb] at herr
      simp at herr
  · intro o st ip query now herr
    unfold search_with_answer at *
    by_cases h1 : o.turnstileOk = false
    · rw [if_pos h1] at herr
      rcases herr with herr | herr <;> simp at herr
    rw [if_neg h1] at herr ⊢
    by_cases h2 : (check_rate_limit st.rl ip now 10).1.allowed = false
    · rw [if_pos h2] at herr
      rcases herr with herr | herr <;> simp at herr
    rw [if_neg h2] at herr ⊢
    have hall : (check_rate_limit st.rl ip now 10).1.allowed = true := by
      revert h2
      cases (check_rate_limit st.rl ip now 10).1.allowed <;> simp
    by_cases h3 : query = "" ∨ (pyStrip query).length < 3
    · rw [if_pos h3]
      rw [stAfterLog_rl]
      exact check_allowed_state st.rl ip now 10 hall
    rw [if_neg h3] at herr ⊢
    by_cases h4 : 5 ≤ (st.sessions ip).length
    · rw [if_pos h4]
      rw [stAfterLog_rl]
      exact check_allowed_state st.rl ip now 10 hall
    rw [if_neg h4] at herr ⊢
    cases hemb : o.embed (handlerParams st ip query).2.2 with
    | none =>
      rw [hemb] at herr
      rcases herr with herr | herr <;> simp at herr
    | some emb =>
      rw [hemb] at herr
      rcases herr with herr | herr <;> simp at herr

/-- C5 witness: the short-query rejection on an empty state stores the
pruned-plus-new-stamp quota list. -/
theorem C5_fail_fast_witness :
    ((search_with_answer oW stEmpty "ip" ("hi") 0).2.1).rl "ip" =
      (stEmpty.rl "ip").filter (fun x => 0 - oneDay < x) ++ [0] :=
  C5_fail_fast.2.2 oW stEmpty "ip" ("hi") 0 (Or.inl rfl)

/-! ## C8: response contract bounds -/

/-- C8: every successful response returns as sources the first five of
the gated chunks in rank order (hence at most five, even when the
guest-specific branch retrieves with limit 10), while total_results is
the full gated count; the retrieval limit is always 10 or 5. -/
theorem C8_response_bounds :
    ∀ (o : Oracles) (st : ServerState) (ip query : String) (now : Int)
      (resp : SearchResponse) (st2 : ServerState) (ev : List Event),
      search_with_answer o st ip query now = (.ok resp, st2, ev) →
      ∃ emb, o.embed (handlerParams st ip query).2.2 = some emb ∧
        resp.sources = (qualityGate (o.search emb (handlerParams st ip query).1
          (handlerParams st ip query).2.1)).take 5 ∧
        resp.total_results = (qualityGate (o.search emb (handlerParams st ip query).1
          (handlerParams st ip query).2.1)).length ∧
        resp.sources.length ≤ 5 ∧
        ((handlerParams st ip query).1 = 10 ∨ (handlerParams st ip query).1 = 5) := by
  intro o st ip query now resp st2 ev h
  unfold search_with_answer at h
  by_cases h1 : o.turnstileOk = false
  · rw [if_pos h1] at h
    simp at h
  rw [if_neg h1] at h
  by_cases h2 : (check_rate_limit st.rl ip now 10).1.allowed = false
  · rw [if_pos h2] at h
    simp at h
  rw [if_neg h2] at h
  by_cases h3 : query = "" ∨ (pyStrip query).length < 3
  · rw [if_pos h3] at h
    simp at h
  rw [if_neg h3] at h
  by_cases h4 : 5 ≤ (st.sessions ip).length
  · rw [if_pos h4] at h
    simp at h
  rw [if_neg h4] at h
  cases hemb : o.embed (handlerParams st ip query).2.2 with
  | none =>
    rw [hemb] at h
    simp at h
  | some emb =>
    rw [hemb] at h
    refine ⟨emb, rfl, ?_⟩
    have hresp : resp = successResponse o st ip query now emb := by
      have := congrArg Prod.fst h
      simp at this
      exact this.symm
    subst hresp
    refine ⟨rfl, rfl, ?_, guest_rewrite_limit query _⟩
    simp only [successResponse, List.length_take]
    exact Nat.min_le_left 5 _

/-- C8 witness: a successful run returning four retrieved chunks gates
them to three and reports three sources, at most five. -/
theorem C8_response_bounds_witness :
    (successResponse oW stEmpty "ip" ("tell me about growth") 0 []).sources.length
      ≤ 5 := by
  obtain ⟨emb, -, -, -, hlen, -⟩ :=
    C8_response_bounds oW stEmpty "ip" ("tell me about growth") 0
      (successResponse oW stEmpty "ip" ("tell me about growth") 0 [])
      (successState oW stEmpty "ip" ("tell me about growth") 0)
      (successEvents oW stEmpty "ip" ("tell me about growth")) rfl
  exact hlen

/-! ## C10: degraded generation answer still consumes a session slot -/

/-- C10: when the generation collaborator fails, the degraded marker
string "Error: ..." is returned as the answer, and it is nevertheless
appended to the client's session as a regular turn, so the failed
generation consumes a conversation slot and the reported
conversation_length is the previous session length plus one. -/
theorem C10_error_answer_consumes_slot :
    ∀ (o : Oracles) (st : ServerState) (ip query : String) (now : Int) (e : String)
      (resp : SearchResponse) (st2 : ServerState) (ev : List Event),
      o.generate query = .error e →
      search_with_answer o st ip query now = (.ok resp, st2, ev) →
      resp.answer = "Error: " ++ e ∧
      (⟨query, "Error: " ++ e, now⟩ : Turn) ∈ st2.sessions ip ∧
      resp.conversation_length = (st.sessions ip).length + 1 := by
  intro o st ip query now e resp st2 ev hgen h
  unfold search_with_answer at h
  by_cases h1 : o.turnstileOk = false
  · rw [if_pos h1] at h
    simp at h
  rw [if_neg h1] at h
  by_cases h2 : (check_rate_limit st.rl ip now 10).1.allowed = false
  · rw [if_pos h2] at h
    simp at h
  rw [if_neg h2] at h
  by_cases h3 : query = "" ∨ (pyStrip query).length < 3
  · rw [if_pos h3] at h
    simp at h
  rw [if_neg h3] at h
  by_cases h4 : 5 ≤ (st.sessions ip).length
  · rw [if_pos h4] at h
    simp at h
  rw [if_neg h4] at h
  cases hemb : o.embed (handlerParams st ip query).2.2 with
  | none =>
    rw [hemb] at h
    simp at h
  | some emb =>
    rw [hemb] at h
    have hresp : resp = successResponse o st ip query now emb := by
      have := congrArg Prod.fst h
      simp at this
      exact this.symm
    have hst2 : st2 = successState o st ip query now := by
      have := congrArg (fun x => x.2.1) h
      simp at this
      exact this.symm
    have hans : synthesize_answer (o.generate query)
        (mkConversationContext (st.sessions ip)) = "Error: " ++ e := by
      rw [hgen]
      rfl
    subst hresp hst2
    refine ⟨by simp [successResponse, hans], ?_, by simp [successResponse]⟩
    simp only [successState, hans]
    have hlen : (st.sessions ip ++ [(⟨query, "Error: " ++ e, now⟩ : Turn)]).length ≤ 5 := by
      simp only [List.length_append, List.length_cons, List.length_nil]
      omega
    rw [if_pos (by trivial), pyTakeLast_of_le 5 _ hlen]
    rw [List.mem_filter]
    constructor
    · exact List.mem_append_right _ (by simp)
    · simp only [oneDay, decide_eq_true_eq]
      omega

/-- C10 witness: a failing generation oracle yields the marker answer,
stores it as a turn, and reports conversation length one on an empty
session. -/
theorem C10_error_answer_witness :
    (successResponse oWerr stEmpty "ip" ("tell me about growth") 0 []).answer
      = "Error: boom" ∧
    (⟨"tell me about growth", "Error: boom", 0⟩ : Turn) ∈
      (successState oWerr stEmpty "ip" ("tell me about growth") 0).sessions "ip" ∧
    (successResponse oWerr stEmpty "ip" ("tell me about growth") 0 []).conversation_length
      = (stEmpty.sessions "ip").length + 1 :=
  C10_error_answer_consumes_slot oWerr stEmpty "ip" ("tell me about growth") 0
    ("boom") (successResponse oWerr stEmpty "ip" ("tell me about growth") 0 [])
    (successState oWerr stEmpty "ip" ("tell me about growth") 0)
    (successEvents oWerr stEmpty "ip" ("tell me about growth")) rfl rfl

end LennyLens
